import Mathlib

/-!
Verification development for the nginx log-analyzer repository.

The Python sources are shallowly embedded here:
* `log_pattern_match` embeds the shared compiled regex
  `(\d+\.\d+\.\d+\.\d+) - - \[([^\]]+)\] "([^"]*)" (\d+) (\d+|-) "([^"]*)" "([^"]*)" "([^"]*)"`
  used (identically) by all three analyzer variants via `re.match`.  Every
  quantifier in that pattern is forced (each repeated class excludes the
  following literal), so the backtracking regex is equivalent to this
  deterministic maximal-munch scanner; `re.match` anchors at the start only,
  so trailing text is accepted.
* `HighPerformanceNginxAnalyzer.*` embeds `high_performance_analyzer.py`
  (timestamp fast path, per-line processing, streaming and mmap drivers).
* `NginxLogAnalyzer.*` embeds `nginx_log_analyzer.py` (strptime-based
  parsing, per-day statistics, success-rate query).

Machine integers are modelled as `Nat`/`Int` (Python integers are unbounded),
Python dicts as insertion-ordered association lists, and the success-rate
float as `ℚ` (the quotient `success/total*100` itself).
-/

/-- Python `str.strip()`: drop leading and trailing whitespace. -/
def pystrip (s : String) : String :=
  String.mk (((s.data.dropWhile Char.isWhitespace).reverse.dropWhile Char.isWhitespace).reverse)

/-- Python `str.startswith(p)`. -/
def py_startswith (s p : String) : Bool :=
  p.data.isPrefixOf s.data

/-- Consume an exact literal from the front of the character stream. -/
def dropLit? : List Char → List Char → Option (List Char)
  | [], cs => some cs
  | l :: ls, c :: cs => if c = l then dropLit? ls cs else none
  | _ :: _, [] => none

/-- `\d+`: one or more digits, maximal munch. -/
def takeDigits? (cs : List Char) : Option (List Char × List Char) :=
  let ds := cs.takeWhile Char.isDigit
  if ds = [] then none else some (ds, cs.drop ds.length)

/-- `X{n}` for a character class `p`: exactly `n` characters satisfying `p`. -/
def takeExact? (n : Nat) (p : Char → Bool) (cs : List Char) :
    Option (List Char × List Char) :=
  let pre := cs.take n
  if pre.length = n ∧ pre.all p then some (pre, cs.drop n) else none

/-- `(\d{n})<sep>`: an exact-width digit group followed by a literal. -/
def digitsThen? (n : Nat) (sep : List Char) (cs : List Char) :
    Option (List Char × List Char) :=
  match takeExact? n Char.isDigit cs with
  | none => none
  | some (ds, rest) =>
    match dropLit? sep rest with
    | none => none
    | some rest => some (ds, rest)

/-- Numeric value of a digit string (Python `int` on the regex-captured
all-digit strings appearing in this code base). -/
def digitsVal (cs : List Char) : Nat :=
  cs.foldl (fun a c => 10 * a + (c.toNat - 48)) 0

/-- Python `int(s)` restricted to the shapes the log layout can produce:
a non-empty all-digit string converts, everything else raises (`none`). -/
def pyIntDigits? (s : String) : Option Nat :=
  if s.data ≠ [] ∧ s.data.all Char.isDigit then some (digitsVal s.data) else none

/-- Association-list lookup (Python `dict` membership / access). -/
def alLookup {β : Type} : List (String × β) → String → Option β
  | [], _ => none
  | (k', v) :: t, k => if k' = k then some v else alLookup t k

/-- `defaultdict(lambda: {'total': 0, 'success': 0})` read. -/
def dsFetch (m : List (String × (Nat × Nat))) (k : String) : Nat × Nat :=
  (alLookup m k).getD (0, 0)

/-- Store a value for a key, preserving dict insertion order (append if new). -/
def dsSet : List (String × (Nat × Nat)) → String → Nat × Nat →
    List (String × (Nat × Nat))
  | [], k, v => [(k, v)]
  | (k', v') :: t, k, v => if k' = k then (k, v) :: t else (k', v') :: dsSet t k v

/-- The eight capture groups of the shared log-line regex, all strings,
exactly as `match.groups()` yields them. -/
structure LogFields where
  ip : String
  timestamp : String
  request : String
  status_code : String
  size : String
  referer : String
  user_agent : String
  response_time : String
deriving Repr, DecidableEq

/-- `(\d+|-)`: digits tried first, then the single dash (the alternation is
deterministic: a stream starting with a digit can never satisfy the dash
branch and vice versa). -/
def takeSizeField? (cs : List Char) : Option (List Char × List Char) :=
  match takeDigits? cs with
  | some p => some p
  | none =>
    match cs with
    | '-' :: rest => some (['-'], rest)
    | _ => none

/-- `"([^"]*)"<sep>`: a quote-free capture followed by a literal separator. -/
def takeQuoted? (sep : List Char) (cs : List Char) :
    Option (List Char × List Char) :=
  let q := cs.takeWhile (fun c => decide (c ≠ '"'))
  match dropLit? sep (cs.drop q.length) with
  | none => none
  | some rest => some (q, rest)

/-- `re.match` of the shared log pattern against a (stripped) line.
Returns the eight capture groups or `none`.  Trailing text after the final
quote is allowed (`re.match` does not anchor the end). -/
def log_pattern_match (s : String) : Option LogFields :=
  match takeDigits? s.data with
  | none => none
  | some (o1, cs) =>
  match dropLit? ['.'] cs with
  | none => none
  | some cs =>
  match takeDigits? cs with
  | none => none
  | some (o2, cs) =>
  match dropLit? ['.'] cs with
  | none => none
  | some cs =>
  match takeDigits? cs with
  | none => none
  | some (o3, cs) =>
  match dropLit? ['.'] cs with
  | none => none
  | some cs =>
  match takeDigits? cs with
  | none => none
  | some (o4, cs) =>
  match dropLit? (" - - [".data) cs with
  | none => none
  | some cs =>
  let ts := cs.takeWhile (fun c => decide (c ≠ ']'))
  if ts = ([] : List Char) then none else
  match dropLit? ("] \"".data) (cs.drop ts.length) with
  | none => none
  | some cs =>
  match takeQuoted? ("\" ".data) cs with
  | none => none
  | some (req, cs) =>
  match takeDigits? cs with
  | none => none
  | some (stc, cs) =>
  match dropLit? [' '] cs with
  | none => none
  | some cs =>
  match takeSizeField? cs with
  | none => none
  | some (sz, cs) =>
  match dropLit? (" \"".data) cs with
  | none => none
  | some cs =>
  match takeQuoted? ("\" \"".data) cs with
  | none => none
  | some (ref, cs) =>
  match takeQuoted? ("\" \"".data) cs with
  | none => none
  | some (ua, cs) =>
  match takeQuoted? ("\"".data) cs with
  | none => none
  | some (rt, _) =>
  some
    { ip := String.mk (o1 ++ '.' :: o2 ++ '.' :: o3 ++ '.' :: o4),
      timestamp := String.mk ts,
      request := String.mk req,
      status_code := String.mk stc,
      size := String.mk sz,
      referer := String.mk ref,
      user_agent := String.mk ua,
      response_time := String.mk rt }

namespace HighPerformanceNginxAnalyzer

/-- `self.month_map`. -/
def month_map : List (String × Nat) :=
  [("Jan", 1), ("Feb", 2), ("Mar", 3), ("Apr", 4), ("May", 5), ("Jun", 6),
   ("Jul", 7), ("Aug", 8), ("Sep", 9), ("Oct", 10), ("Nov", 11), ("Dec", 12)]

/-- `\w`: word character (ASCII fragment of the Python class). -/
def isWordChar (c : Char) : Bool := c.isAlphanum || c = '_'

/-- The seven capture groups of
`(\d{2})/(\w{3})/(\d{4}):(\d{2}):(\d{2}):(\d{2}) ([+-]\d{4})`. -/
structure TimeGroups where
  day : String
  mon : String
  year : String
  hour : String
  minute : String
  second : String
  tz : String
deriving Repr, DecidableEq

/-- `re.match` of `self.time_pattern`; exact-width groups make the pattern
deterministic, and trailing text is again allowed. -/
def time_pattern_match (s : String) : Option TimeGroups :=
  match digitsThen? 2 ['/'] s.data with
  | none => none
  | some (dd, cs) =>
  match takeExact? 3 isWordChar cs with
  | none => none
  | some (mon, cs) =>
  match dropLit? ['/'] cs with
  | none => none
  | some cs =>
  match digitsThen? 4 [':'] cs with
  | none => none
  | some (yy, cs) =>
  match digitsThen? 2 [':'] cs with
  | none => none
  | some (hh, cs) =>
  match digitsThen? 2 [':'] cs with
  | none => none
  | some (mi, cs) =>
  match digitsThen? 2 [' '] cs with
  | none => none
  | some (ss, cs) =>
  match cs with
  | sgn :: cs =>
    if sgn = '+' ∨ sgn = '-' then
      match takeExact? 4 Char.isDigit cs with
      | none => none
      | some (tzd, _) =>
        some
          { day := String.mk dd, mon := String.mk mon, year := String.mk yy,
            hour := String.mk hh, minute := String.mk mi, second := String.mk ss,
            tz := String.mk (sgn :: tzd) }
    else none
  | [] => none

/-- `f"{n:02d}"` for the month/day values occurring here. -/
def pad2 (n : Nat) : String :=
  if n < 10 then "0" ++ toString n else toString n

/-- `HighPerformanceNginxAnalyzer.fast_parse_timestamp`: match the time
pattern, map the month name, and format `f"{year}-{month:02d}-{int(day):02d}"`.
The captured zone offset (`tz`) is deliberately not consulted. -/
def fast_parse_timestamp (s : String) : Option String :=
  match time_pattern_match s with
  | none => none
  | some g =>
    match alLookup month_map g.mon with
    | none => none
    | some m => some (g.year ++ "-" ++ pad2 m ++ "-" ++ pad2 (digitsVal g.day.data))

/-- The analyzer's mutable counters (`reset_stats`). -/
structure HPState where
  https_domain1_count : Nat
  daily_stats : List (String × (Nat × Nat))
  total_lines_processed : Nat
  valid_lines_processed : Nat
deriving Repr, DecidableEq

/-- Freshly constructed analyzer (`reset_stats`). -/
def hpInit : HPState := ⟨0, [], 0, 0⟩

/-- `HighPerformanceNginxAnalyzer.process_line`. -/
def process_line (st : HPState) (line : String) : HPState :=
  let st1 : HPState := { st with total_lines_processed := st.total_lines_processed + 1 }
  match log_pattern_match (pystrip line) with
  | none => st1
  | some f =>
    let st2 : HPState := { st1 with valid_lines_processed := st1.valid_lines_processed + 1 }
    let st3 : HPState :=
      if py_startswith f.referer "https://domain1.com" then
        { st2 with https_domain1_count := st2.https_domain1_count + 1 }
      else st2
    match fast_parse_timestamp f.timestamp with
    | none => st3
    | some dk =>
      let t0 := dsFetch st3.daily_stats dk
      let st4 : HPState := { st3 with daily_stats := dsSet st3.daily_stats dk (t0.1 + 1, t0.2) }
      match pyIntDigits? f.status_code with
      | none => st4
      | some n =>
        if 200 ≤ n ∧ n < 300 then
          let t1 := dsFetch st4.daily_stats dk
          { st4 with daily_stats := dsSet st4.daily_stats dk (t1.1, t1.2 + 1) }
        else st4

/-- `HighPerformanceNginxAnalyzer._process_batch`. -/
def _process_batch (st : HPState) (lines : List String) : HPState :=
  lines.foldl process_line st

/-- One iteration of the streaming loop body: append the line to the current
batch and flush via `_process_batch` once the batch reaches `batchSize`. -/
def streamStep (batchSize : Nat) (acc : HPState × List String) (line : String) :
    HPState × List String :=
  let batch := acc.2 ++ [line]
  if batchSize ≤ batch.length then (_process_batch acc.1 batch, [])
  else (acc.1, batch)

/-- `process_file_streaming` (aggregation content): batch the decoded lines,
flush full batches, then flush the non-empty remainder. -/
def process_file_streaming (batchSize : Nat) (st : HPState) (lines : List String) :
    HPState :=
  let r := lines.foldl (streamStep batchSize) (st, [])
  if r.2 = ([] : List String) then r.1 else _process_batch r.1 r.2

/-- `process_file_mmap` (aggregation content): feed each decoded line to
`process_line`, one at a time. -/
def process_file_mmap (st : HPState) (lines : List String) : HPState :=
  lines.foldl process_line st

/-- A whole run starting from a fresh analyzer. -/
def hpRun (lines : List String) : HPState :=
  lines.foldl process_line hpInit

end HighPerformanceNginxAnalyzer

namespace NginxLogAnalyzer

/-- An aware `datetime` as produced by
`datetime.strptime(ts, '%d/%b/%Y:%H:%M:%S %z')`: the local calendar fields
plus the zone offset in minutes. -/
structure PyDateTime where
  year : Nat
  month : Nat
  day : Nat
  hour : Nat
  minute : Nat
  second : Nat
  offMinutes : Int
deriving Repr, DecidableEq

/-- `%d` of `_strptime`: the regex `3[01]|[12]\d|0[1-9]|[1-9]` (ordered
alternation; the single-digit branch only fires when no two-digit branch
does, matching the backtracking behavior because a dropped digit can never
match the following `/`). -/
def parseDay : List Char → Option (Nat × List Char)
  | c1 :: c2 :: rest =>
    if c1 = '3' ∧ (c2 = '0' ∨ c2 = '1') then some (30 + (c2.toNat - 48), rest)
    else if (c1 = '1' ∨ c1 = '2') ∧ c2.isDigit then
      some ((c1.toNat - 48) * 10 + (c2.toNat - 48), rest)
    else if c1 = '0' ∧ c2.isDigit ∧ c2 ≠ '0' then some (c2.toNat - 48, rest)
    else if c1.isDigit ∧ c1 ≠ '0' then some (c1.toNat - 48, c2 :: rest)
    else none
  | [c1] => if c1.isDigit ∧ c1 ≠ '0' then some (c1.toNat - 48, []) else none
  | [] => none

/-- `%H`: `2[0-3]|[0-1]\d|\d`. -/
def parseHour : List Char → Option (Nat × List Char)
  | c1 :: c2 :: rest =>
    if c1 = '2' ∧ (c2 = '0' ∨ c2 = '1' ∨ c2 = '2' ∨ c2 = '3') then
      some (20 + (c2.toNat - 48), rest)
    else if (c1 = '0' ∨ c1 = '1') ∧ c2.isDigit then
      some ((c1.toNat - 48) * 10 + (c2.toNat - 48), rest)
    else if c1.isDigit then some (c1.toNat - 48, c2 :: rest)
    else none
  | [c1] => if c1.isDigit then some (c1.toNat - 48, []) else none
  | [] => none

/-- `%M`: `[0-5]\d|\d`. -/
def parseMinute : List Char → Option (Nat × List Char)
  | c1 :: c2 :: rest =>
    if c1.isDigit ∧ c1.toNat ≤ 53 ∧ c2.isDigit then
      some ((c1.toNat - 48) * 10 + (c2.toNat - 48), rest)
    else if c1.isDigit then some (c1.toNat - 48, c2 :: rest)
    else none
  | [c1] => if c1.isDigit then some (c1.toNat - 48, []) else none
  | [] => none

/-- `%S`: `6[0-1]|[0-5]\d|\d` (leap seconds are matched by the regex and then
rejected by the `datetime` constructor, see `strptime_dbYHMSz`). -/
def parseSecond : List Char → Option (Nat × List Char)
  | c1 :: c2 :: rest =>
    if c1 = '6' ∧ (c2 = '0' ∨ c2 = '1') then some (60 + (c2.toNat - 48), rest)
    else if c1.isDigit ∧ c1.toNat ≤ 53 ∧ c2.isDigit then
      some ((c1.toNat - 48) * 10 + (c2.toNat - 48), rest)
    else if c1.isDigit then some (c1.toNat - 48, c2 :: rest)
    else none
  | [c1] => if c1.isDigit then some (c1.toNat - 48, []) else none
  | [] => none

/-- `%b`: the C-locale month abbreviations, case-insensitively. -/
def month_abbrs : List (String × Nat) :=
  [("jan", 1), ("feb", 2), ("mar", 3), ("apr", 4), ("may", 5), ("jun", 6),
   ("jul", 7), ("aug", 8), ("sep", 9), ("oct", 10), ("nov", 11), ("dec", 12)]

def parseMonB : List Char → Option (Nat × List Char)
  | a :: b :: c :: rest =>
    match alLookup month_abbrs (String.mk [a.toLower, b.toLower, c.toLower]) with
    | some m => some (m, rest)
    | none => none
  | _ => none

def isLeap (y : Nat) : Bool :=
  y % 4 = 0 ∧ (y % 100 ≠ 0 ∨ y % 400 = 0)

def days_in_month (y m : Nat) : Nat :=
  if m = 2 then (if isLeap y then 29 else 28)
  else if m = 4 ∨ m = 6 ∨ m = 9 ∨ m = 11 then 30
  else 31

/-- `datetime.strptime(s, '%d/%b/%Y:%H:%M:%S %z')`.  The whole string must be
consumed (`_strptime` rejects trailing text), the offset must stay below 24
hours (`timezone` constraint), and the `datetime` constructor then validates
year ≥ MINYEAR, the day against the month length, and seconds ≤ 59.
Offsets of the `±HHMM`/`±HH:MM` shapes are modelled; the rarer `%z` forms
(trailing seconds/fraction, literal `Z`) do not occur in this log layout. -/
def strptime_dbYHMSz (s : String) : Option PyDateTime :=
  match parseDay s.data with
  | none => none
  | some (d, cs) =>
  match dropLit? ['/'] cs with
  | none => none
  | some cs =>
  match parseMonB cs with
  | none => none
  | some (mo, cs) =>
  match dropLit? ['/'] cs with
  | none => none
  | some cs =>
  match digitsThen? 4 [':'] cs with
  | none => none
  | some (yl, cs) =>
  match parseHour cs with
  | none => none
  | some (h, cs) =>
  match dropLit? [':'] cs with
  | none => none
  | some cs =>
  match parseMinute cs with
  | none => none
  | some (mi, cs) =>
  match dropLit? [':'] cs with
  | none => none
  | some cs =>
  match parseSecond cs with
  | none => none
  | some (sec, cs) =>
  match dropLit? [' '] cs with
  | none => none
  | some cs =>
  match cs with
  | [] => none
  | sgn :: cs =>
    if sgn = '+' ∨ sgn = '-' then
      match takeExact? 2 Char.isDigit cs with
      | none => none
      | some (oh, cs) =>
        let cs := match cs with | ':' :: r => r | _ => cs
        match takeExact? 2 Char.isDigit cs with
        | none => none
        | some (om, cs) =>
          if cs = ([] : List Char) then
            let y := digitsVal yl
            let off := digitsVal oh * 60 + digitsVal om
            if off ≤ 1439 ∧ 1 ≤ y ∧ d ≤ days_in_month y mo ∧ sec ≤ 59 then
              some ⟨y, mo, d, h, mi, sec, (if sgn = '-' then -(off : Int) else (off : Int))⟩
            else none
          else none
    else none

/-- Days since 1970-01-01 of a proleptic-Gregorian civil date
(standard days-from-civil algorithm, as used by `datetime`'s ordinal). -/
def days_from_civil (y m d : Int) : Int :=
  let y' := if m ≤ 2 then y - 1 else y
  let era := Int.fdiv y' 400
  let yoe := y' - era * 400
  let doy := Int.fdiv (153 * (m + (if 2 < m then -3 else 9)) + 2) 5 + d - 1
  let doe := yoe * 365 + Int.fdiv yoe 4 - Int.fdiv yoe 100 + doy
  era * 146097 + doe - 719468

/-- Inverse of `days_from_civil` (civil-from-days). -/
def civil_from_days (z : Int) : Int × Int × Int :=
  let z := z + 719468
  let era := Int.fdiv z 146097
  let doe := z - era * 146097
  let yoe := Int.fdiv (doe - Int.fdiv doe 1460 + Int.fdiv doe 36524 - Int.fdiv doe 146096) 365
  let y := yoe + era * 400
  let doy := doe - (365 * yoe + Int.fdiv yoe 4 - Int.fdiv yoe 100)
  let mp := Int.fdiv (5 * doy + 2) 153
  let d := doy - Int.fdiv (153 * mp + 2) 5 + 1
  let m := mp + (if mp < 10 then 3 else -9)
  (if m ≤ 2 then y + 1 else y, m, d)

/-- Minutes since the epoch of the UTC instant denoted by an aware
`datetime` (seconds cannot move the day boundary because offsets are whole
minutes, so they are omitted). -/
def utcMinutes (p : PyDateTime) : Int :=
  days_from_civil p.year p.month p.day * 1440
    + ((p.hour * 60 + p.minute : Nat) : Int) - p.offMinutes

/-- The UTC calendar day (as an epoch day number) of an aware `datetime`:
what `timestamp.utctimetuple()` reports as its date. -/
def utcDayNumber (p : PyDateTime) : Int :=
  Int.fdiv (utcMinutes p) 1440

def pad2z (n : Int) : String :=
  if n < 10 then "0" ++ toString n else toString n

def pad4z (n : Int) : String :=
  (if n < 1000 then (if n < 100 then (if n < 10 then "000" else "00") else "0") else "")
    ++ toString n

/-- `NginxLogAnalyzer.get_date_key`: convert the aware timestamp to UTC via
`utctimetuple()` (which subtracts the zone offset) and format
`f"{tm_year:04d}-{tm_mon:02d}-{tm_mday:02d}"`. -/
def get_date_key (p : PyDateTime) : String :=
  let c := civil_from_days (utcDayNumber p)
  pad4z c.1 ++ "-" ++ pad2z c.2.1 ++ "-" ++ pad2z c.2.2

/-- Exponent part of a Python float literal: optional sign then digits. -/
def pyFloatExpOk (cs : List Char) : Bool :=
  let cs := match cs with | '+' :: t => t | '-' :: t => t | _ => cs
  match cs with
  | [] => false
  | _ => cs.all Char.isDigit

/-- `float(s)` succeeds: modelled for plain decimal literals (optional sign,
digits with optional point, optional exponent).  The exotic inputs `float`
also accepts (inf/nan, surrounding whitespace, underscores) cannot reach
this call in the claims below. -/
def isPyFloat (s : String) : Bool :=
  let cs := s.data
  let cs := match cs with | '+' :: t => t | '-' :: t => t | _ => cs
  let ip := cs.takeWhile Char.isDigit
  let cs := cs.drop ip.length
  let fp :=
    match cs with
    | '.' :: t => some (t.takeWhile Char.isDigit, t.drop (t.takeWhile Char.isDigit).length)
    | _ => none
  let frac := (fp.map Prod.fst).getD []
  let rest := (fp.map Prod.snd).getD cs
  if ip = ([] : List Char) ∧ frac = ([] : List Char) then false
  else
    match rest with
    | [] => true
    | 'e' :: t => pyFloatExpOk t
    | 'E' :: t => pyFloatExpOk t
    | _ => false

/-- The dictionary `parse_log_line` builds (the `response_time` float is kept
as its raw captured text; no claim consumes its numeric value, only whether
its conversion succeeds). -/
structure NgRecord where
  ip : String
  timestamp : PyDateTime
  method : String
  url : String
  protocol : String
  status_code : Nat
  size : Nat
  referer : String
  user_agent : String
  response_time_raw : String
deriving Repr, DecidableEq

/-- `request.split(' ', 2)` with the `parts[i] if len(parts) > i else ''`
defaults. -/
def split_request (s : String) : String × String × String :=
  let a := s.data.takeWhile (fun c => decide (c ≠ ' '))
  match s.data.drop a.length with
  | ' ' :: r1 =>
    let b := r1.takeWhile (fun c => decide (c ≠ ' '))
    match r1.drop b.length with
    | ' ' :: r3 => (String.mk a, String.mk b, String.mk r3)
    | _ => (String.mk a, String.mk b, "")
  | _ => (String.mk a, "", "")

/-- `NginxLogAnalyzer.parse_log_line`: regex match, `strptime` of the
timestamp, numeric conversions (`'-'` size becomes `0`), any failure gives
`None`. -/
def parse_log_line (line : String) : Option NgRecord :=
  match log_pattern_match (pystrip line) with
  | none => none
  | some f =>
    match strptime_dbYHMSz f.timestamp with
    | none => none
    | some ts =>
      match pyIntDigits? f.status_code with
      | none => none
      | some stc =>
        match (if f.size = "-" then some 0 else pyIntDigits? f.size) with
        | none => none
        | some sz =>
          if f.response_time = "-" ∨ isPyFloat f.response_time = true then
            some ⟨f.ip, ts, (split_request f.request).1, (split_request f.request).2.1,
                  (split_request f.request).2.2, stc, sz, f.referer, f.user_agent,
                  f.response_time⟩
          else none

/-- `NginxLogAnalyzer.is_https_domain1_request`. -/
def is_https_domain1_request (r : NgRecord) : Bool :=
  py_startswith r.referer "https://domain1.com"

/-- `NginxLogAnalyzer.is_success_status`: membership in `range(200, 300)`. -/
def is_success_status (n : Nat) : Bool :=
  200 ≤ n ∧ n < 300

/-- The analyzer's counters plus the line accounting of `process_log_file`
(`total_lines` counts every line seen, `processed_lines` the successfully
parsed ones as returned by `_process_batch`). -/
structure NgState where
  https_domain1_count : Nat
  daily_stats : List (String × (Nat × Nat))
  total_lines : Nat
  processed_lines : Nat
deriving Repr, DecidableEq

def ngInit : NgState := ⟨0, [], 0, 0⟩

/-- One line of `process_log_file`/`_process_batch`: count the line, parse
it, and on success update the global counter and the daily statistics. -/
def ng_process_line (st : NgState) (line : String) : NgState :=
  let st1 : NgState := { st with total_lines := st.total_lines + 1 }
  match parse_log_line line with
  | none => st1
  | some r =>
    let st2 : NgState := { st1 with processed_lines := st1.processed_lines + 1 }
    let st3 : NgState :=
      if is_https_domain1_request r then
        { st2 with https_domain1_count := st2.https_domain1_count + 1 }
      else st2
    let dk := get_date_key r.timestamp
    let t0 := dsFetch st3.daily_stats dk
    let st4 : NgState := { st3 with daily_stats := dsSet st3.daily_stats dk (t0.1 + 1, t0.2) }
    if is_success_status r.status_code then
      let t1 := dsFetch st4.daily_stats dk
      { st4 with daily_stats := dsSet st4.daily_stats dk (t1.1, t1.2 + 1) }
    else st4

/-- A whole run over the decoded lines of a file. -/
def ngRun (lines : List String) : NgState :=
  lines.foldl ng_process_line ngInit

/-- `NginxLogAnalyzer.get_daily_success_rate`: `(rate, success, total)`,
with `(0.0, 0, 0)` when the date has no entry; the rate is the exact
quotient `success/total*100` as a rational. -/
def get_daily_success_rate (st : NgState) (date : String) : ℚ × Nat × Nat :=
  match alLookup st.daily_stats date with
  | none => (0, 0, 0)
  | some (t, s) => ((if 0 < t then (s : ℚ) / (t : ℚ) * 100 else 0), s, t)

end NginxLogAnalyzer

open HighPerformanceNginxAnalyzer NginxLogAnalyzer

/-! Concrete log lines used as test vectors (mirroring the spec's scenario
lines and the samples shipped with the source). -/

/-- Scenario A: 200, secure referer. -/
def lineA : String :=
  "47.29.201.179 - - [28/Feb/2019:13:17:10 +0000] \"GET / HTTP/1.1\" 200 100 \"https://domain1.com/\" \"UA\" \"1.0\""

/-- Scenario B: same but status 500. -/
def lineB : String :=
  "47.29.201.179 - - [28/Feb/2019:13:17:10 +0000] \"GET / HTTP/1.1\" 500 100 \"https://domain1.com/\" \"UA\" \"1.0\""

/-- Scenario C: non-secure referer. -/
def lineC : String :=
  "47.29.201.179 - - [28/Feb/2019:13:17:10 +0000] \"GET / HTTP/1.1\" 200 100 \"http://domain2.com/\" \"UA\" \"1.0\""

/-- Out-of-range status code 999. -/
def line999 : String :=
  "47.29.201.179 - - [28/Feb/2019:13:17:10 +0000] \"GET / HTTP/1.1\" 999 100 \"https://domain1.com/\" \"UA\" \"1.0\""

/-- Layout-valid line whose month name is unrecognized. -/
def lineXyz : String :=
  "9.9.9.9 - - [28/Xyz/2019:13:17:10 +0000] \"GET / HTTP/1.1\" 200 100 \"https://domain1.com/\" \"UA\" \"1.0\""

/-- Size field is the absence marker. -/
def lineDash : String :=
  "10.0.0.50 - - [28/Feb/2019:13:19:20 +0000] \"GET /x HTTP/1.1\" 404 - \"http://domain2.com/\" \"Moz\" \"0.45\""

/-- Same request with an explicit zero-byte body. -/
def lineZero : String :=
  "10.0.0.50 - - [28/Feb/2019:13:19:20 +0000] \"GET /x HTTP/1.1\" 404 0 \"http://domain2.com/\" \"Moz\" \"0.45\""

/-! The byte-to-line stages of the two ingestion drivers.  File content is
modelled as a character list over the ASCII subset, on which the permissive
`utf-8`/`errors='ignore'` decode both drivers apply is the identity; the
two drivers differ in how they split that content into lines, and both
splitters compare single bytes (`\n` = 0x0A, `\r` = 0x0D). -/

/-- Universal-newline translation performed by text-mode reading
(`open(..., 'r')`, default `newline=None`): each `\r\n` pair and each lone
`\r` becomes a single `\n`. -/
def universal_translate : List Char → List Char
  | [] => []
  | [c] => if c = '\r' then ['\n'] else [c]
  | c1 :: c2 :: rest =>
    if c1 = '\r' then
      if c2 = '\n' then '\n' :: universal_translate rest
      else '\n' :: universal_translate (c2 :: rest)
    else c1 :: universal_translate (c2 :: rest)

/-- Split after each `\n`, keeping the terminator; a final unterminated
segment is yielded without one (how both `for line in file` and
`iter(mmapped_file.readline, b"")` enumerate lines of their streams). -/
def split_keepNl : List Char → List Char → List String
  | [], acc => if acc = ([] : List Char) then [] else [String.mk acc.reverse]
  | c :: rest, acc =>
    if c = '\n' then String.mk (acc.reverse ++ ['\n']) :: split_keepNl rest []
    else split_keepNl rest (c :: acc)

/-- Lines seen by the buffered-streaming driver: text-mode reading splits on
universal newlines (`\n`, `\r`, `\r\n`), translating each to `\n`. -/
def read_lines_text (bs : List Char) : List String :=
  split_keepNl (universal_translate bs) []

/-- Lines seen by the memory-mapped driver: `mmap.readline` splits on the
byte `\n` only; a lone `\r` stays embedded in its line. -/
def read_lines_mmap (bs : List Char) : List String :=
  split_keepNl bs []

/-- `process_file_streaming` from the file content: text-mode line reading
followed by batched processing. -/
def process_file_streaming_bytes (batchSize : Nat) (st : HPState)
    (bs : List Char) : HPState :=
  process_file_streaming batchSize st (read_lines_text bs)

/-- `process_file_mmap` from the file content: `b'\n'`-delimited line
reading followed by one-at-a-time processing. -/
def process_file_mmap_bytes (st : HPState) (bs : List Char) : HPState :=
  process_file_mmap st (read_lines_mmap bs)

/-- File content holding two layout-valid records separated by a lone
carriage return (and a final `\n`). -/
def c3bytes : List Char :=
  lineA.data ++ '\r' :: (lineC.data ++ ['\n'])

/-- All totals stored in a daily-statistics dict are positive. -/
def dsTotalsPos (m : List (String × (Nat × Nat))) : Prop :=
  ∀ k t s, alLookup m k = some (t, s) → 0 < t

/-! Association-list lemmas for the `defaultdict` model. -/

theorem alLookup_dsSet (m : List (String × (Nat × Nat))) (k : String)
    (v : Nat × Nat) (k' : String) :
    alLookup (dsSet m k v) k' = if k = k' then some v else alLookup m k' := by
  induction m with
  | nil =>
    simp only [dsSet, alLookup]
  | cons hd tl ih =>
    obtain ⟨k0, v0⟩ := hd
    simp only [dsSet, alLookup]
    by_cases h0 : k0 = k
    · subst h0
      simp only [if_pos rfl, alLookup]
      by_cases h1 : k0 = k' <;> simp [h1]
    · rw [if_neg h0]
      simp only [alLookup]
      by_cases h1 : k0 = k'
      · subst h1
        have : ¬ k0 = k := h0
        rw [if_pos rfl, if_neg (fun h => this h.symm), if_pos rfl]
      · rw [if_neg h1, if_neg h1, ih]

theorem dsFetch_dsSet (m : List (String × (Nat × Nat))) (k : String)
    (v : Nat × Nat) (k' : String) :
    dsFetch (dsSet m k v) k' = if k = k' then v else dsFetch m k' := by
  rw [dsFetch, alLookup_dsSet]
  by_cases h : k = k' <;> simp [h, dsFetch]

theorem dsSet_dsSet (m : List (String × (Nat × Nat))) (k : String)
    (v w : Nat × Nat) :
    dsSet (dsSet m k v) k w = dsSet m k w := by
  induction m with
  | nil => simp [dsSet]
  | cons hd tl ih =>
    obtain ⟨k0, v0⟩ := hd
    by_cases h0 : k0 = k
    · subst h0
      simp [dsSet]
    · simp [dsSet, h0, ih]

/-- C4: processing a line that matches the layout increments the global
secure-referer counter by exactly 1 iff the captured referer starts with
the literal prefix `https://domain1.com`, independently of the status code
and of every other field. -/
theorem C4_global_counter_iff_referer (st : HPState) (line : String)
    (f : LogFields) (h : log_pattern_match (pystrip line) = some f) :
    (process_line st line).https_domain1_count =
      st.https_domain1_count +
        (if py_startswith f.referer "https://domain1.com" then 1 else 0) := by
  simp only [process_line, h]
  cases hr : py_startswith f.referer "https://domain1.com" <;>
    cases hfp : fast_parse_timestamp f.timestamp <;>
    simp only [hr, if_true, if_false, Bool.false_eq_true, ite_true, ite_false] <;>
    first
    | rfl
    | (cases hn : pyIntDigits? f.status_code <;>
        simp only [hn] <;>
        first
        | rfl
        | (rename_i n; by_cases hs : 200 ≤ n ∧ n < 300 <;> simp [hs]))


/-! Helper characterizations of a single `process_line` step. -/

theorem process_line_daily_update (st : HPState) (line : String)
    (f : LogFields) (dk : String) (n : Nat)
    (h : log_pattern_match (pystrip line) = some f)
    (hdk : fast_parse_timestamp f.timestamp = some dk)
    (hn : pyIntDigits? f.status_code = some n) :
    (process_line st line).daily_stats =
      dsSet st.daily_stats dk
        ((dsFetch st.daily_stats dk).1 + 1,
         (dsFetch st.daily_stats dk).2 + (if 200 ≤ n ∧ n < 300 then 1 else 0)) := by
  simp only [process_line, h, hdk, hn]
  cases hr : py_startswith f.referer "https://domain1.com" <;>
    by_cases hs : 200 ≤ n ∧ n < 300 <;>
    simp [hr, hs, dsFetch_dsSet, dsSet_dsSet]

theorem process_line_valid_incr (st : HPState) (line : String)
    (f : LogFields) (h : log_pattern_match (pystrip line) = some f) :
    (process_line st line).valid_lines_processed = st.valid_lines_processed + 1 := by
  simp only [process_line, h]
  cases hr : py_startswith f.referer "https://domain1.com" <;>
    cases hfp : fast_parse_timestamp f.timestamp <;>
    simp only [hr, Bool.false_eq_true, ite_true, ite_false] <;>
    first
    | rfl
    | (cases hn : pyIntDigits? f.status_code <;>
        simp only [hn] <;>
        first
        | rfl
        | (rename_i n; by_cases hs : 200 ≤ n ∧ n < 300 <;> simp [hs]))

/-- C5: for a layout-valid line whose timestamp normalizes to the key `dk`
and whose status field has numeric value `n`, processing bumps that day's
`total` by exactly 1 and its `success` by exactly 1 iff `n ∈ [200, 300)`
(so a 500 bumps `total` only), leaving every other day untouched. -/
theorem C5_daily_counter_update (st : HPState) (line : String)
    (f : LogFields) (dk : String) (n : Nat)
    (h : log_pattern_match (pystrip line) = some f)
    (hdk : fast_parse_timestamp f.timestamp = some dk)
    (hn : pyIntDigits? f.status_code = some n) :
    dsFetch (process_line st line).daily_stats dk =
      ((dsFetch st.daily_stats dk).1 + 1,
       (dsFetch st.daily_stats dk).2 + (if 200 ≤ n ∧ n < 300 then 1 else 0)) ∧
    ∀ d, d ≠ dk → dsFetch (process_line st line).daily_stats d
      = dsFetch st.daily_stats d := by
  rw [process_line_daily_update st line f dk n h hdk hn]
  constructor
  · rw [dsFetch_dsSet, if_pos rfl]
  · intro d hd
    rw [dsFetch_dsSet, if_neg (Ne.symm hd)]

/-- C10: any all-digit status field is accepted without range validation:
the line counts as valid, the day's `total` increments, and `success`
increments exactly when the numeric value lies in `[200, 300)` — even for
values like 999 or 1000 that no HTTP response carries. -/
theorem C10_status_not_validated (st : HPState) (line : String)
    (f : LogFields) (n : Nat) (dk : String)
    (h : log_pattern_match (pystrip line) = some f)
    (hn : pyIntDigits? f.status_code = some n)
    (hdk : fast_parse_timestamp f.timestamp = some dk) :
    (process_line st line).valid_lines_processed = st.valid_lines_processed + 1 ∧
    dsFetch (process_line st line).daily_stats dk =
      ((dsFetch st.daily_stats dk).1 + 1,
       (dsFetch st.daily_stats dk).2 + (if 200 ≤ n ∧ n < 300 then 1 else 0)) := by
  refine ⟨process_line_valid_incr st line f h, ?_⟩
  rw [process_line_daily_update st line f dk n h hdk hn, dsFetch_dsSet, if_pos rfl]

/-- C6 (amended, high-performance pipeline): a layout-valid line whose
timestamp fails normalization still counts as valid and still drives the
global secure-referer counter, but leaves the daily statistics untouched. -/
theorem C6_hp_normalization_failure (st : HPState) (line : String)
    (f : LogFields)
    (h : log_pattern_match (pystrip line) = some f)
    (hfp : fast_parse_timestamp f.timestamp = none) :
    (process_line st line).valid_lines_processed = st.valid_lines_processed + 1 ∧
    (process_line st line).https_domain1_count =
      st.https_domain1_count +
        (if py_startswith f.referer "https://domain1.com" then 1 else 0) ∧
    (process_line st line).daily_stats = st.daily_stats := by
  simp only [process_line, h, hfp]
  cases hr : py_startswith f.referer "https://domain1.com" <;> simp [hr]

/-- C1 (amended, high-performance normalizer): for every timestamp string
accepted by the fixed layout pattern whose month name is in the lookup
table, `fast_parse_timestamp` returns the year, month and day exactly as
written; the result does not depend on the captured hour, minute, second
or signed zone offset, so the date is never rolled across a day boundary. -/
theorem C1_fast_parse_verbatim (ts : String) (g : TimeGroups) (m : Nat)
    (h : time_pattern_match ts = some g)
    (hm : alLookup month_map g.mon = some m) :
    fast_parse_timestamp ts =
      some (g.year ++ "-" ++ pad2 m ++ "-" ++ pad2 (digitsVal g.day.data)) := by
  simp only [fast_parse_timestamp, h, hm]

/-- C1 witness: a timestamp whose −0800 offset would move the UTC date to
March 2 still normalizes to the written date March 1. -/
theorem C1_fast_parse_verbatim_witness :
    fast_parse_timestamp "01/Mar/2019:18:30:00 -0800" = some "2019-03-01" := by
  have h := C1_fast_parse_verbatim "01/Mar/2019:18:30:00 -0800"
      ⟨"01", "Mar", "2019", "18", "30", "00", "-0800"⟩ 3 rfl rfl
  exact h.trans (by rfl)

/-- C1 counterexample: the baseline normalizer (`NginxLogAnalyzer.get_date_key`,
fed by `strptime`) DOES apply the signed offset: a local timestamp written
on March 1 with offset +0100 is reported as February 28, not as the written
date — so the claim is false of that cited normalizer. -/
theorem C1_counterexample :
    fast_parse_timestamp "01/Mar/2019:00:17:10 +0100" = some "2019-03-01" ∧
    (strptime_dbYHMSz "01/Mar/2019:00:17:10 +0100").map get_date_key =
      some "2019-02-28" ∧
    ("2019-02-28" : String) ≠ "2019-03-01" :=
  ⟨rfl, rfl, by decide⟩

/-- C2 (amended, baseline normalizer): two parseable timestamps denoting the
same UTC calendar day (equal UTC epoch-day numbers after applying their
embedded offsets) always normalize to equal date keys under
`NginxLogAnalyzer.get_date_key`, whatever the offsets are. -/
theorem C2_get_date_key_utc_invariant (s1 s2 : String) (p1 p2 : PyDateTime)
    (h1 : strptime_dbYHMSz s1 = some p1)
    (h2 : strptime_dbYHMSz s2 = some p2)
    (hday : utcDayNumber p1 = utcDayNumber p2) :
    get_date_key p1 = get_date_key p2 := by
  simp only [get_date_key, hday]

/-- C2 witness: 23:30Z on Feb 28 and 00:30+0100 on Mar 1 denote the same UTC
day and get the same key. -/
theorem C2_get_date_key_utc_invariant_witness :
    get_date_key ⟨2019, 2, 28, 23, 30, 0, 0⟩ =
      get_date_key ⟨2019, 3, 1, 0, 30, 0, 60⟩ :=
  C2_get_date_key_utc_invariant "28/Feb/2019:23:30:00 +0000"
    "01/Mar/2019:00:30:00 +0100" _ _ rfl rfl (by decide)

/-- C2 counterexample: the high-performance normalizer
(`fast_parse_timestamp`) violates the same-UTC-day invariant: these two
timestamps denote the same UTC instant (hence the same UTC calendar day)
but normalize to different DateKeys because the offset is ignored. -/
theorem C2_counterexample :
    strptime_dbYHMSz "28/Feb/2019:23:30:00 +0000" =
      some ⟨2019, 2, 28, 23, 30, 0, 0⟩ ∧
    strptime_dbYHMSz "01/Mar/2019:00:30:00 +0100" =
      some ⟨2019, 3, 1, 0, 30, 0, 60⟩ ∧
    utcDayNumber ⟨2019, 2, 28, 23, 30, 0, 0⟩ =
      utcDayNumber ⟨2019, 3, 1, 0, 30, 0, 60⟩ ∧
    fast_parse_timestamp "28/Feb/2019:23:30:00 +0000" = some "2019-02-28" ∧
    fast_parse_timestamp "01/Mar/2019:00:30:00 +0100" = some "2019-03-01" ∧
    fast_parse_timestamp "28/Feb/2019:23:30:00 +0000" ≠
      fast_parse_timestamp "01/Mar/2019:00:30:00 +0100" :=
  ⟨rfl, rfl, by decide, rfl, rfl, by decide⟩

/-- C6 counterexample: in the baseline analyzer an otherwise layout-valid
line whose month is unrecognized is rejected wholesale by `parse_log_line`,
so it does NOT count as a valid line and does NOT increment the global
counter even though its referer carries the secure prefix. -/
theorem C6_counterexample :
    log_pattern_match (pystrip lineXyz) =
      some ⟨"9.9.9.9", "28/Xyz/2019:13:17:10 +0000", "GET / HTTP/1.1",
            "200", "100", "https://domain1.com/", "UA", "1.0"⟩ ∧
    py_startswith "https://domain1.com/" "https://domain1.com" = true ∧
    fast_parse_timestamp "28/Xyz/2019:13:17:10 +0000" = none ∧
    strptime_dbYHMSz "28/Xyz/2019:13:17:10 +0000" = none ∧
    parse_log_line lineXyz = none ∧
    ng_process_line ngInit lineXyz =
      { https_domain1_count := 0, daily_stats := [], total_lines := 1,
        processed_lines := 0 } :=
  ⟨rfl, rfl, rfl, rfl, rfl, rfl⟩

/-- C6 witness (high-performance pipeline): the same unrecognized-month line
is counted valid, increments the global counter, and leaves the daily
statistics empty. -/
theorem C6_hp_normalization_failure_witness :
    (process_line hpInit lineXyz).valid_lines_processed = 1 ∧
    (process_line hpInit lineXyz).https_domain1_count = 1 ∧
    (process_line hpInit lineXyz).daily_stats = [] := by
  have h := C6_hp_normalization_failure hpInit lineXyz
      ⟨"9.9.9.9", "28/Xyz/2019:13:17:10 +0000", "GET / HTTP/1.1", "200", "100",
       "https://domain1.com/", "UA", "1.0"⟩ rfl rfl
  refine ⟨h.1, ?_, h.2.2⟩
  rw [h.2.1]
  decide

/-- C4 witness (Scenario C): a referer of `http://domain2.com/` leaves the
global counter unchanged. -/
theorem C4_global_counter_iff_referer_witness :
    (process_line hpInit lineC).https_domain1_count = 0 := by
  have h := C4_global_counter_iff_referer hpInit lineC
      ⟨"47.29.201.179", "28/Feb/2019:13:17:10 +0000", "GET / HTTP/1.1",
       "200", "100", "http://domain2.com/", "UA", "1.0"⟩ rfl
  rw [h]
  decide

/-- C5 witness (Scenario B): a 500 increments the day's total but not its
success count. -/
theorem C5_daily_counter_update_witness :
    dsFetch (process_line hpInit lineB).daily_stats "2019-02-28" = (1, 0) := by
  have h := C5_daily_counter_update hpInit lineB
      ⟨"47.29.201.179", "28/Feb/2019:13:17:10 +0000", "GET / HTTP/1.1",
       "500", "100", "https://domain1.com/", "UA", "1.0"⟩ "2019-02-28" 500
      rfl rfl rfl
  rw [h.1]
  decide

/-- C10 witness: status 999 is accepted as a valid record and counts toward
the day's total without counting as a success. -/
theorem C10_status_not_validated_witness :
    (process_line hpInit line999).valid_lines_processed = 1 ∧
    dsFetch (process_line hpInit line999).daily_stats "2019-02-28" = (1, 0) := by
  have h := C10_status_not_validated hpInit line999
      ⟨"47.29.201.179", "28/Feb/2019:13:17:10 +0000", "GET / HTTP/1.1",
       "999", "100", "https://domain1.com/", "UA", "1.0"⟩ 999 "2019-02-28"
      rfl rfl rfl
  exact ⟨h.1, by rw [h.2]; decide⟩

/-- C7 (amended): `parse_log_line` stores the literal absence marker `'-'`
as response size `0` — the same value as an explicit zero-byte body, not a
distinct sentinel — while an all-digit size field converts to its numeric
value. -/
theorem C7_size_conversion (line : String) (f : LogFields) (r : NgRecord)
    (h : log_pattern_match (pystrip line) = some f)
    (hp : parse_log_line line = some r) :
    (f.size = "-" → r.size = 0) ∧
    (∀ n, pyIntDigits? f.size = some n → r.size = n) := by
  simp only [parse_log_line, h] at hp
  rcases hts : strptime_dbYHMSz f.timestamp with _ | ts
  · rw [hts] at hp; cases hp
  simp only [hts] at hp
  rcases hstc : pyIntDigits? f.status_code with _ | stc
  · rw [hstc] at hp; cases hp
  simp only [hstc] at hp
  by_cases hdash : f.size = "-"
  · simp only [hdash, if_true, ite_true, reduceIte] at hp
    split at hp
    · injection hp with hp
      subst hp
      refine ⟨fun _ => rfl, fun n hn => ?_⟩
      rw [hdash] at hn
      have hnone : pyIntDigits? "-" = none := rfl
      rw [hnone] at hn
      cases hn
    · cases hp
  · simp only [hdash, if_false, ite_false, reduceIte] at hp
    rcases hsz : pyIntDigits? f.size with _ | sz
    · rw [hsz] at hp; cases hp
    simp only [hsz] at hp
    split at hp
    · injection hp with hp
      subst hp
      refine ⟨fun hd => absurd hd hdash, fun n hn => ?_⟩
      injection hn with hn
    · cases hp

/-- C7 counterexample: a line whose size field is `'-'` parses to a record
whose `response_size` equals `0`, indistinguishable from the record of the
same line with an explicit `0` size — absence is conflated with a zero-byte
body rather than mapped to a distinct sentinel. -/
theorem C7_counterexample :
    (log_pattern_match (pystrip lineDash)).map LogFields.size = some "-" ∧
    (parse_log_line lineDash).map NgRecord.size = some 0 ∧
    (parse_log_line lineZero).map NgRecord.size = some 0 :=
  ⟨rfl, rfl, rfl⟩

/-- C7 witness: the record parsed from the dash-size line has size `0`. -/
theorem C7_size_conversion_witness :
    ({ ip := "10.0.0.50", timestamp := ⟨2019, 2, 28, 13, 19, 20, 0⟩,
       method := "GET", url := "/x", protocol := "HTTP/1.1", status_code := 404,
       size := 0, referer := "http://domain2.com/", user_agent := "Moz",
       response_time_raw := "0.45" } : NgRecord).size = 0 := by
  have h := C7_size_conversion lineDash
      ⟨"10.0.0.50", "28/Feb/2019:13:19:20 +0000", "GET /x HTTP/1.1", "404", "-",
       "http://domain2.com/", "Moz", "0.45"⟩
      ⟨"10.0.0.50", ⟨2019, 2, 28, 13, 19, 20, 0⟩, "GET", "/x", "HTTP/1.1", 404, 0,
       "http://domain2.com/", "Moz", "0.45"⟩ rfl rfl
  exact h.1 rfl

/-! Streaming/mmap equivalence. -/

theorem _process_batch_append (st : HPState) (a b : List String) :
    _process_batch st (a ++ b) = _process_batch (_process_batch st a) b := by
  simp [_process_batch, List.foldl_append]

/-- Finishing the streaming loop from any intermediate state equals batch
processing the pending batch followed by the remaining lines. -/
theorem stream_fold_flush (bs : Nat) (lines : List String) :
    ∀ (st : HPState) (batch : List String),
      _process_batch ((lines.foldl (streamStep bs) (st, batch)).1)
          ((lines.foldl (streamStep bs) (st, batch)).2)
        = _process_batch st (batch ++ lines) := by
  induction lines with
  | nil =>
    intro st batch
    simp [_process_batch]
  | cons l ls ih =>
    intro st batch
    rw [List.foldl_cons]
    by_cases hb : bs ≤ (batch ++ [l]).length
    · rw [show streamStep bs (st, batch) l = (_process_batch st (batch ++ [l]), [])
        from by simp only [streamStep]; rw [if_pos hb]]
      rw [ih]
      rw [show batch ++ l :: ls = (batch ++ [l]) ++ ls from by simp]
      rw [_process_batch_append]
      simp [_process_batch]
    · rw [show streamStep bs (st, batch) l = (st, batch ++ [l])
        from by simp only [streamStep]; rw [if_neg hb]]
      rw [ih]
      simp

/-- Once both strategies are fed the same decoded line list, batching (any
batch size) and one-at-a-time processing produce identical counters. -/
theorem strategy_equivalence_same_lines (batchSize : Nat) (st : HPState)
    (lines : List String) :
    (process_file_streaming batchSize st lines).https_domain1_count
        = (process_file_mmap st lines).https_domain1_count ∧
    (process_file_streaming batchSize st lines).daily_stats
        = (process_file_mmap st lines).daily_stats ∧
    (process_file_streaming batchSize st lines).valid_lines_processed
        = (process_file_mmap st lines).valid_lines_processed := by
  have key : process_file_streaming batchSize st lines = process_file_mmap st lines := by
    have h := stream_fold_flush batchSize lines st []
    simp only [List.nil_append] at h
    simp only [process_file_streaming, process_file_mmap]
    by_cases hr : (List.foldl (streamStep batchSize) (st, ([] : List String)) lines).2
        = ([] : List String)
    · rw [if_pos hr]
      rw [hr] at h
      simpa [_process_batch] using h
    · rw [if_neg hr]
      exact h.trans (by simp [_process_batch])
  exact ⟨congrArg _ key, congrArg _ key, congrArg _ key⟩

theorem universal_translate_no_cr :
    ∀ bs : List Char, ('\r' : Char) ∉ bs → universal_translate bs = bs
  | [], _ => rfl
  | [c], h => by
    have hc : ¬ c = '\r' := fun e => h (e ▸ List.mem_cons_self c [])
    simp [universal_translate, hc]
  | c1 :: c2 :: rest, h => by
    have h1 : ¬ c1 = '\r' := fun e => h (e ▸ List.mem_cons_self c1 (c2 :: rest))
    have tail := universal_translate_no_cr (c2 :: rest)
      (fun hm => h (List.mem_cons_of_mem c1 hm))
    simp [universal_translate, h1, tail]

/-- C3 (amended): for every input byte stream free of carriage returns —
so that the streaming driver's universal-newline text splitting coincides
with the mmap driver's `b'\n'`-only splitting — the two strategies produce
identical aggregation results: the same global secure-referer count, the
same per-date daily statistics, and the same count of valid lines. -/
theorem C3_strategy_equivalence_no_cr (batchSize : Nat) (st : HPState)
    (bs : List Char) (h : ('\r' : Char) ∉ bs) :
    (process_file_streaming_bytes batchSize st bs).https_domain1_count
        = (process_file_mmap_bytes st bs).https_domain1_count ∧
    (process_file_streaming_bytes batchSize st bs).daily_stats
        = (process_file_mmap_bytes st bs).daily_stats ∧
    (process_file_streaming_bytes batchSize st bs).valid_lines_processed
        = (process_file_mmap_bytes st bs).valid_lines_processed := by
  have hsame : read_lines_text bs = read_lines_mmap bs := by
    simp only [read_lines_text, read_lines_mmap, universal_translate_no_cr bs h]
  simp only [process_file_streaming_bytes, process_file_mmap_bytes, hsame]
  exact strategy_equivalence_same_lines batchSize st (read_lines_mmap bs)

set_option maxRecDepth 16384 in
/-- C3 counterexample: on the byte stream holding two layout-valid records
separated by a lone `\r`, text-mode reading yields two lines (universal
newlines) while `mmap.readline` yields one (the second record survives only
as ignored trailing text of that line), so the strategies disagree on the
valid-line count — 2 against 1 — at the source's default batch size. -/
theorem C3_counterexample :
    read_lines_text c3bytes = [lineA ++ "\n", lineC ++ "\n"] ∧
    read_lines_mmap c3bytes = [lineA ++ "\r" ++ lineC ++ "\n"] ∧
    (process_file_streaming_bytes 50000 hpInit c3bytes).valid_lines_processed = 2 ∧
    (process_file_mmap_bytes hpInit c3bytes).valid_lines_processed = 1 ∧
    (process_file_streaming_bytes 50000 hpInit c3bytes).valid_lines_processed ≠
      (process_file_mmap_bytes hpInit c3bytes).valid_lines_processed := by
  refine ⟨rfl, rfl, rfl, rfl, ?_⟩
  intro heq
  rw [show (process_file_streaming_bytes 50000 hpInit c3bytes).valid_lines_processed = 2
        from rfl,
      show (process_file_mmap_bytes hpInit c3bytes).valid_lines_processed = 1
        from rfl] at heq
  cases heq

set_option maxRecDepth 16384 in
/-- C3 witness: a single `\n`-terminated record contains no carriage return
and both strategies agree on it. -/
theorem C3_strategy_equivalence_no_cr_witness :
    (process_file_streaming_bytes 50000 hpInit (lineA.data ++ ['\n'])).valid_lines_processed
      = (process_file_mmap_bytes hpInit (lineA.data ++ ['\n'])).valid_lines_processed := by
  have h := C3_strategy_equivalence_no_cr 50000 hpInit (lineA.data ++ ['\n']) (by decide)
  exact h.2.2


/-! Additivity of the aggregation (counter merge for parallel extensions). -/

/-- Each `process_line` step adds to every counter exactly the contribution
the same line makes to a fresh engine. -/
theorem process_line_add (st : HPState) (line : String) (d : String) :
    (process_line st line).total_lines_processed
      = st.total_lines_processed + (process_line hpInit line).total_lines_processed ∧
    (process_line st line).valid_lines_processed
      = st.valid_lines_processed + (process_line hpInit line).valid_lines_processed ∧
    (process_line st line).https_domain1_count
      = st.https_domain1_count + (process_line hpInit line).https_domain1_count ∧
    (dsFetch (process_line st line).daily_stats d).1
      = (dsFetch st.daily_stats d).1 + (dsFetch (process_line hpInit line).daily_stats d).1 ∧
    (dsFetch (process_line st line).daily_stats d).2
      = (dsFetch st.daily_stats d).2 + (dsFetch (process_line hpInit line).daily_stats d).2 := by
  rcases h : log_pattern_match (pystrip line) with _ | f
  · simp [process_line, h, hpInit, dsFetch, alLookup]
  rcases hfp : fast_parse_timestamp f.timestamp with _ | dk
  · cases hr : py_startswith f.referer "https://domain1.com" <;>
      simp [process_line, h, hfp, hr, hpInit, dsFetch, alLookup]
  rcases hn : pyIntDigits? f.status_code with _ | n
  · cases hr : py_startswith f.referer "https://domain1.com" <;>
      by_cases hd : dk = d <;>
      simp [process_line, h, hfp, hn, hr, hd, hpInit, dsFetch, alLookup_dsSet, alLookup]
  · cases hr : py_startswith f.referer "https://domain1.com" <;>
      by_cases hs : 200 ≤ n ∧ n < 300 <;>
      by_cases hd : dk = d <;>
      simp [process_line, h, hfp, hn, hr, hs, hd, hpInit, dsFetch, alLookup_dsSet,
        dsSet_dsSet, alLookup]

/-- Folding from any start state adds the fresh-engine result of the folded
lines, componentwise. -/
theorem hpRun_fold_add (lines : List String) :
    ∀ (st : HPState) (d : String),
      (lines.foldl process_line st).total_lines_processed
        = st.total_lines_processed + (hpRun lines).total_lines_processed ∧
      (lines.foldl process_line st).valid_lines_processed
        = st.valid_lines_processed + (hpRun lines).valid_lines_processed ∧
      (lines.foldl process_line st).https_domain1_count
        = st.https_domain1_count + (hpRun lines).https_domain1_count ∧
      (dsFetch (lines.foldl process_line st).daily_stats d).1
        = (dsFetch st.daily_stats d).1 + (dsFetch (hpRun lines).daily_stats d).1 ∧
      (dsFetch (lines.foldl process_line st).daily_stats d).2
        = (dsFetch st.daily_stats d).2 + (dsFetch (hpRun lines).daily_stats d).2 := by
  induction lines with
  | nil =>
    intro st d
    simp [hpRun, hpInit, dsFetch, alLookup]
  | cons l ls ih =>
    intro st d
    have IH1 := ih (process_line st l) d
    have IH2 := ih (process_line hpInit l) d
    have A1 := process_line_add st l d
    simp only [hpRun, List.foldl_cons] at *
    obtain ⟨a1, a2, a3, a4, a5⟩ := A1
    obtain ⟨b1, b2, b3, b4, b5⟩ := IH1
    obtain ⟨c1, c2, c3, c4, c5⟩ := IH2
    refine ⟨?_, ?_, ?_, ?_, ?_⟩ <;> omega

/-- C9: splitting the input at a line boundary, aggregating each half with
its own fresh engine, and summing the counters componentwise (global
counter, line counts, and each date's total and success) equals aggregating
the whole input in one pass. -/
theorem C9_merge_additivity (l1 l2 : List String) (d : String) :
    (hpRun (l1 ++ l2)).https_domain1_count
      = (hpRun l1).https_domain1_count + (hpRun l2).https_domain1_count ∧
    (hpRun (l1 ++ l2)).total_lines_processed
      = (hpRun l1).total_lines_processed + (hpRun l2).total_lines_processed ∧
    (hpRun (l1 ++ l2)).valid_lines_processed
      = (hpRun l1).valid_lines_processed + (hpRun l2).valid_lines_processed ∧
    (dsFetch (hpRun (l1 ++ l2)).daily_stats d).1
      = (dsFetch (hpRun l1).daily_stats d).1 + (dsFetch (hpRun l2).daily_stats d).1 ∧
    (dsFetch (hpRun (l1 ++ l2)).daily_stats d).2
      = (dsFetch (hpRun l1).daily_stats d).2 + (dsFetch (hpRun l2).daily_stats d).2 := by
  have h := hpRun_fold_add l2 (hpRun l1) d
  simp only [hpRun, List.foldl_append] at h ⊢
  exact ⟨h.2.2.1, h.1, h.2.1, h.2.2.2.1, h.2.2.2.2⟩

/-! Reachable daily statistics always carry positive totals. -/

theorem dsTotalsPos_dsSet (m : List (String × (Nat × Nat))) (k : String)
    (v : Nat × Nat) (h : dsTotalsPos m) (hv : 0 < v.1) :
    dsTotalsPos (dsSet m k v) := by
  intro k' t s hk
  rw [alLookup_dsSet] at hk
  by_cases he : k = k'
  · rw [if_pos he] at hk
    injection hk with hk
    rw [hk] at hv
    simpa using hv
  · rw [if_neg he] at hk
    exact h k' t s hk

theorem ng_process_line_totals_pos (st : NgState) (line : String)
    (h : dsTotalsPos st.daily_stats) :
    dsTotalsPos (ng_process_line st line).daily_stats := by
  rcases hp : parse_log_line line with _ | r
  · simpa [ng_process_line, hp] using h
  simp only [ng_process_line, hp]
  cases hr : is_https_domain1_request r <;>
    cases hs : is_success_status r.status_code <;>
    simp only [hr, hs, ite_true, ite_false, Bool.false_eq_true, dsFetch_dsSet,
      dsSet_dsSet, if_pos rfl] <;>
    exact dsTotalsPos_dsSet _ _ _ h (Nat.succ_pos _)

theorem ng_fold_totals_pos (lines : List String) :
    ∀ st : NgState, dsTotalsPos st.daily_stats →
      dsTotalsPos ((lines.foldl ng_process_line st).daily_stats) := by
  induction lines with
  | nil => intro st h; exact h
  | cons l ls ih =>
    intro st h
    simp only [List.foldl_cons]
    exact ih _ (ng_process_line_totals_pos st l h)

theorem ngRun_totals_pos (lines : List String) :
    dsTotalsPos (ngRun lines).daily_stats :=
  ng_fold_totals_pos lines ngInit (fun k t s hk => by simp [ngInit, alLookup] at hk)

/-- C8: on any reachable engine state, the daily success-rate query returns
the exact rate `success/total × 100` for a date that has data (such a date
always has `total > 0`), returns `(0, 0, 0)` when the date has no data, and
the returned total is positive exactly when data exists — so an empty date
is signalled explicitly rather than silently reported as a 0% day. -/
theorem C8_daily_success_rate_query (lines : List String) (date : String) :
    (∀ t s, alLookup (ngRun lines).daily_stats date = some (t, s) →
      0 < t ∧
      get_daily_success_rate (ngRun lines) date = ((s : ℚ) / (t : ℚ) * 100, s, t)) ∧
    (alLookup (ngRun lines).daily_stats date = none →
      get_daily_success_rate (ngRun lines) date = (0, 0, 0)) ∧
    (0 < (get_daily_success_rate (ngRun lines) date).2.2 ↔
      (alLookup (ngRun lines).daily_stats date).isSome = true) := by
  have hpos := ngRun_totals_pos lines
  refine ⟨?_, ?_, ?_⟩
  · intro t s hk
    have ht := hpos date t s hk
    refine ⟨ht, ?_⟩
    simp [get_daily_success_rate, hk, ht]
  · intro hk
    simp [get_daily_success_rate, hk]
  · rcases hk : alLookup (ngRun lines).daily_stats date with _ | ⟨t, s⟩
    · simp [get_daily_success_rate, hk]
    · have ht := hpos date t s hk
      simp [get_daily_success_rate, hk, ht]

/-- C8 witness (Scenario E): querying a date with zero records returns rate
0 with zero success and zero total. -/
theorem C8_daily_success_rate_query_witness :
    get_daily_success_rate (ngRun []) "2019-02-28" = (0, 0, 0) := by
  have h := C8_daily_success_rate_query [] "2019-02-28"
  exact h.2.1 rfl
